import Mathlib

/-!
Verification of the `noxfile.py` automation script of the
`django-girls-tutorial` repository.

The script is pure orchestration: module-level configuration constants,
four registered nox sessions (`lint`, `export`, `tests`, `migrate`) and a
per-app migration helper.  We embed each session body as a function from an
`Env` — which supplies the outcome of every external effect the body can
perform (tool installation, external command execution, filesystem
existence checks) — to the ordered trace of observable events the body
emits together with the session's final outcome.  An uncaught exception
from a step is an `Except.error` result; steps the source wraps in
`try/except` are translated by matching on the step's outcome exactly as
the source branches.
-/

namespace NoxFile

/-- A Python exception as observed by the script's `except` handlers:
`ty` stands for `type(exc)` and `msg` for `str(exc)`. -/
structure Exc where
  ty : String
  msg : String
deriving DecidableEq

/-- The observable events a session body emits, in order: a dependency
installation (`session.install`), an external command (`session.run`,
carrying the full argument vector), the three logging levels used by the
script, and a marker recording entry into the per-app migration helper
`_do_migration` (the helper emits it first, so helper invocations are
observable in a trace). -/
inductive Event where
  | install (pkg : String)
  | cmd (args : List String)
  | logInfo (m : String)
  | logWarning (m : String)
  | logError (m : String)
  | helperCall (app : String)
deriving DecidableEq

/-- The environment a session body runs against: the outcome of installing
a given package spec, the outcome of running a given external command, and
which filesystem paths exist (`Path(d).exists()`). -/
structure Env where
  installOutcome : String → Except Exc Unit
  runOutcome : List String → Except Exc Unit
  pathExists : String → Bool

/-- Host interpreter version as reported by
`platform.python_version_tuple()`: `("maj", "min", "mic")`. -/
structure PyVerTuple where
  major : String
  minor : String
  micro : String

/-- The process-wide runner options the module sets on `nox.options`
(lines 11–17 of `noxfile.py`). -/
structure NoxOptions where
  default_venv_backend : String
  reuse_existing_virtualenvs : Bool
  error_on_external_run : Bool
  error_on_missing_interpreters : Bool
deriving DecidableEq

/-- Everything the module's top level defines: the runner options, the
default session list assigned to `nox.sessions`, and the configuration
constants `PY_VERSIONS`, `PY_VER_TUPLE`, `DEFAULT_PYTHON`, `PDM_VER`,
`LINT_PATHS`. `uvInstalled` is the result of
`importlib.util.find_spec("uv")` being non-`None`. -/
structure ModuleConfig where
  options : NoxOptions
  sessions : List String
  PY_VERSIONS : List String
  PY_VER_TUPLE : PyVerTuple
  DEFAULT_PYTHON : String
  PDM_VER : String
  LINT_PATHS : List String

/-- Module-level initialization of `noxfile.py`, as a function of the host
state it reads (the running interpreter's version tuple and whether the
`uv` package is importable). -/
def moduleInit (host : PyVerTuple) (uvInstalled : Bool) : ModuleConfig :=
  { options :=
      { default_venv_backend := if uvInstalled then "uv|virtualenv" else "virtualenv"
        reuse_existing_virtualenvs := true
        error_on_external_run := false
        error_on_missing_interpreters := false }
    sessions := ["lint", "export", "tests", "mysite"]
    PY_VERSIONS := ["3.12", "3.11"]
    PY_VER_TUPLE := host
    DEFAULT_PYTHON := host.major ++ "." ++ host.minor
    PDM_VER := "2.15.4"
    LINT_PATHS := ["src", "tests"] }

/-- A session registration produced by a `@nox.session(...)` decorator:
its name, target python version(s) and tags. -/
structure SessionDecl where
  name : String
  pythons : List String
  tags : List String

/-- The four sessions `noxfile.py` registers, with the names, python
targets and tags of their decorators. -/
def registeredSessions (cfg : ModuleConfig) : List SessionDecl :=
  [ ⟨"lint", [cfg.DEFAULT_PYTHON], ["quality"]⟩,
    ⟨"export", [cfg.DEFAULT_PYTHON], ["requirements"]⟩,
    ⟨"tests", cfg.PY_VERSIONS, ["test"]⟩,
    ⟨"migrate", [cfg.DEFAULT_PYTHON], ["django", "db", "migration"]⟩ ]

/-- The `for d in LINT_PATHS:` loop of `run_linter`: a missing path logs a
warning and is skipped; an existing path is formatted with Black, a
failing Black invocation aborting the remainder of the session. -/
def lintLoop (env : Env) : List String → List Event × Except Exc Unit
  | [] => ([], .ok ())
  | d :: rest =>
    if env.pathExists d then
      let evs := [Event.logInfo ("Formatting '" ++ d ++ "' with Black"),
                  Event.cmd ["black", d]]
      match env.runOutcome ["black", d] with
      | .error e => (evs, .error e)
      | .ok _ =>
        let (evs2, r) := lintLoop env rest
        (evs ++ evs2, r)
    else
      let (evs2, r) := lintLoop env rest
      (Event.logWarning ("Skipping lint path '" ++ d ++ "', could not find path") :: evs2, r)

/-- The `lint` session body, parameterized by the configured lint-path
list (the source iterates the module constant `LINT_PATHS`). -/
def run_linter (env : Env) (lintPaths : List String) : List Event × Except Exc Unit :=
  match env.installOutcome "black" with
  | .error e => ([Event.install "black"], .error e)
  | .ok _ =>
    let loop := lintLoop env lintPaths
    let pre := Event.install "black" :: Event.logInfo "Linting code" :: loop.1
    match loop.2 with
    | .error e => (pre, .error e)
    | .ok _ =>
      (pre ++ [Event.logInfo "Linting noxfile.py", Event.cmd ["black", "noxfile.py"]],
       env.runOutcome ["black", "noxfile.py"])

/-- The `export` session body (`export_requirements`), parameterized by
the `pdm_ver` parameter of its `@nox.parametrize` decorator. -/
def export_requirements (env : Env) (pdm_ver : String) : List Event × Except Exc Unit :=
  match env.installOutcome ("pdm>=" ++ pdm_ver) with
  | .error e => ([Event.install ("pdm>=" ++ pdm_ver)], .error e)
  | .ok _ =>
    let c1 := ["pdm", "export", "--prod", "-o", "requirements.txt", "--without-hashes"]
    let pre := [Event.install ("pdm>=" ++ pdm_ver),
                Event.logInfo "Exporting production requirements", Event.cmd c1]
    match env.runOutcome c1 with
    | .error e => (pre, .error e)
    | .ok _ =>
      let c2 := ["pdm", "export", "-d", "-o", "requirements.dev.txt", "--without-hashes"]
      let pre2 := pre ++ [Event.logInfo "Exporting development requirements", Event.cmd c2]
      (pre2, env.runOutcome c2)

/-- The `tests` session body (`run_tests`), parameterized by `pdm_ver`. -/
def run_tests (env : Env) (pdm_ver : String) : List Event × Except Exc Unit :=
  match env.installOutcome ("pdm>=" ++ pdm_ver) with
  | .error e => ([Event.install ("pdm>=" ++ pdm_ver)], .error e)
  | .ok _ =>
    let pre := [Event.install ("pdm>=" ++ pdm_ver), Event.cmd ["pdm", "install"]]
    match env.runOutcome ["pdm", "install"] with
    | .error e => (pre, .error e)
    | .ok _ =>
      let c := ["pdm", "run", "pytest", "-n", "auto", "--tb=auto", "-v", "-rsXxfP"]
      (pre ++ [Event.logInfo "Running Pytest tests", Event.cmd c], env.runOutcome c)

/-- The per-app migration helper `_do_migration`: generate then apply, each
step's exception caught locally and converted into a `false` return.  The
`Except Exc Bool` result records whether an exception escapes the helper
itself: a faithful translation of the two catch-all `except Exception`
blocks yields `.ok` on every path.  The leading `helperCall` event marks
entry into the helper, so the trace of any caller shows each helper
invocation. -/
def _do_migration (env : Env) (app_name : String) : List Event × Except Exc Bool :=
  let pre := [Event.helperCall app_name,
              Event.logInfo ("Making migration for '" ++ app_name ++ "'"),
              Event.cmd ["python", "manage.py", "makemigrations", app_name]]
  match env.runOutcome ["python", "manage.py", "makemigrations", app_name] with
  | .error e =>
    (pre ++ [Event.logError ("(" ++ e.ty ++ ") Unhandled exception making migrations for '"
              ++ app_name ++ "'. Details: " ++ e.msg)], .ok false)
  | .ok _ =>
    let pre2 := pre ++ [Event.cmd ["python", "manage.py", "migrate", app_name]]
    match env.runOutcome ["python", "manage.py", "migrate", app_name] with
    | .error e =>
      (pre2 ++ [Event.logError ("(" ++ e.ty ++ ") Unhandled exception while migrating '"
                ++ app_name ++ "'. Details: " ++ e.msg)], .ok false)
    | .ok _ => (pre2, .ok true)

/-- The `migrate` session body (`do_all_migrations`): install Django
(uncaught on failure), then project-wide generate and apply, each wrapped
in its own `try/except` that logs and returns. -/
def do_all_migrations (env : Env) : List Event × Except Exc Unit :=
  match env.installOutcome "Django" with
  | .error e => ([Event.install "Django"], .error e)
  | .ok _ =>
    let pre := [Event.install "Django", Event.logInfo "Doing migrations",
                Event.cmd ["python", "manage.py", "makemigrations"]]
    match env.runOutcome ["python", "manage.py", "makemigrations"] with
    | .error e =>
      (pre ++ [Event.logError ("(" ++ e.ty ++ ") Unhandled exception making migrations. Details: "
                ++ e.msg)], .ok ())
    | .ok _ =>
      let pre2 := pre ++ [Event.cmd ["python", "manage.py", "migrate"]]
      match env.runOutcome ["python", "manage.py", "migrate"] with
      | .error e =>
        (pre2 ++ [Event.logError ("(" ++ e.ty ++ ") Unhandled exception while migrating models. Details: "
                  ++ e.msg)], .ok ())
      | .ok _ => (pre2, .ok ())

/-- Is the event an external command invocation? -/
def isCmd : Event → Bool
  | .cmd _ => true
  | _ => false

/-- Is the event an invocation of the Black formatter? -/
def isBlackCmd : Event → Bool
  | .cmd ("black" :: _) => true
  | _ => false

/-- Is the event an entry into the per-app migration helper? -/
def isHelperCall : Event → Bool
  | .helperCall _ => true
  | _ => false

/-- Is the event an installation step? -/
def isInstall : Event → Bool
  | .install _ => true
  | _ => false

/-- Is the event the project-wide apply-migrations command
`python manage.py migrate`? -/
def isApplyAllCmd : Event → Bool
  | .cmd args => args == ["python", "manage.py", "migrate"]
  | _ => false

/-- The argument vector of a command event, `none` for other events. -/
def cmdArgs : Event → Option (List String)
  | .cmd args => some args
  | _ => none

/-- An environment where every installation and every external command
succeeds and every path exists. -/
def envAllOk : Env :=
  { installOutcome := fun _ => .ok ()
    runOutcome := fun _ => .ok ()
    pathExists := fun _ => true }

/-- An environment where every installation fails (commands would
succeed, but must never be reached). -/
def envInstallFail : Env :=
  { installOutcome := fun _ => .error ⟨"InstallError", "pip failed"⟩
    runOutcome := fun _ => .ok ()
    pathExists := fun _ => true }

/-- The exception raised by a failing generate-migrations command. -/
def excGen : Exc := ⟨"CommandFailed", "makemigrations exited 1"⟩

/-- The exception raised by a failing apply-migrations command. -/
def excApply : Exc := ⟨"CommandFailed", "migrate exited 1"⟩

/-- An environment where every `makemigrations` command fails with
`excGen` and everything else succeeds. -/
def envGenFail : Env :=
  { installOutcome := fun _ => .ok ()
    runOutcome := fun args => if "makemigrations" ∈ args then .error excGen else .ok ()
    pathExists := fun _ => true }

/-- An environment where every `migrate` command fails with `excApply`
and everything else (including `makemigrations`) succeeds. -/
def envApplyFail : Env :=
  { installOutcome := fun _ => .ok ()
    runOutcome := fun args => if "migrate" ∈ args then .error excApply else .ok ()
    pathExists := fun _ => true }

/-- An environment where everything succeeds but no path exists. -/
def envNoPaths : Env :=
  { installOutcome := fun _ => .ok ()
    runOutcome := fun _ => .ok ()
    pathExists := fun _ => false }

/-- An environment where everything succeeds and exactly the path
`"src"` exists. -/
def envSrcOnly : Env :=
  { installOutcome := fun _ => .ok ()
    runOutcome := fun _ => .ok ()
    pathExists := fun d => d == "src" }

/-- The lint claim exactly as stated: the session issues one formatter
invocation per existing configured path plus one for the script itself,
and a configured path that does not exist receives a warning and no
formatter invocation at all. -/
def lintSessionClaim (env : Env) (paths : List String) : Prop :=
  (run_linter env paths).1.countP isBlackCmd = (paths.filter env.pathExists).length + 1 ∧
  ∀ d ∈ paths, env.pathExists d = false →
    Event.logWarning ("Skipping lint path '" ++ d ++ "', could not find path")
      ∈ (run_linter env paths).1 ∧
    Event.cmd ["black", d] ∉ (run_linter env paths).1

/-- Modelled from the spec: the session-runner core (the external `nox`
framework that reads the declarations in `noxfile.py`) is not under
`src/`.  Per §4.2 a parameterized session is materialized "once per
parameter-value combination", and per §2 the entry point "for each
(session, version, parameter) combination invokes the session body":
one concrete invocation per (version, parameter-value) pair, versions in
declared order. -/
def expandInvocations : List String → List String → List (String × String)
  | [], _ => []
  | v :: rest, params => params.map (fun p => (v, p)) ++ expandInvocations rest params

/-- Modelled from the spec: the runner's scheduling of a session's
declared interpreter versions on a concrete host is not under `src/`.
When `error_on_missing_interpreters` is set, a declared version whose
interpreter is absent aborts the run with an error; when it is unset, the
absent versions are skipped and only the available ones are scheduled. -/
def scheduleVersions (errorOnMissing : Bool) (available : String → Bool)
    (versions : List String) : Except String (List String) :=
  if errorOnMissing && !(versions.all available) then .error "missing interpreters"
  else .ok (versions.filter available)

/-- With a singleton parameter list, expansion yields exactly one
invocation per declared version, in declared order. -/
theorem expandInvocations_singleton (vs : List String) (p : String) :
    expandInvocations vs [p] = vs.map (fun v => (v, p)) := by
  induction vs with
  | nil => rfl
  | cons v rest ih => simp [expandInvocations, ih]

/-- C1: the module assigns the default session set
`["lint", "export", "tests", "mysite"]`, but no registered session is
named `"mysite"` (the fourth registered session is named `"migrate"`), so
the entry `"mysite"` of the Default Session Set does not resolve to a
registered Session. -/
theorem default_set_entry_mysite_unregistered (host : PyVerTuple) (uv : Bool) :
    "mysite" ∈ (moduleInit host uv).sessions ∧
    "mysite" ∉ (registeredSessions (moduleInit host uv)).map SessionDecl.name := by
  constructor
  · simp [moduleInit]
  · simp [moduleInit, registeredSessions]

/-- C6: the declared test-version list is the fixed constant
`["3.12", "3.11"]`, identical on every host (independent of the running
interpreter's version), and expanding a session over a version list of k
entries with the single declared parameter value yields exactly one
invocation per entry, in order — in particular 2 invocations here. -/
theorem run_tests_matrix (host : PyVerTuple) (uv : Bool) (vs : List String) :
    (moduleInit host uv).PY_VERSIONS = ["3.12", "3.11"] ∧
    (∀ host2 uv2, (moduleInit host2 uv2).PY_VERSIONS = (moduleInit host uv).PY_VERSIONS) ∧
    (expandInvocations (moduleInit host uv).PY_VERSIONS
        [(moduleInit host uv).PDM_VER]).length = 2 ∧
    expandInvocations vs [(moduleInit host uv).PDM_VER] =
      vs.map (fun v => (v, (moduleInit host uv).PDM_VER)) := by
  refine ⟨rfl, fun _ _ => rfl, rfl, expandInvocations_singleton vs _⟩

/-- C8: `DEFAULT_PYTHON` is the string `"<major>.<minor>"` formed from the
first two components of the host's reported version tuple, and it does not
depend on the micro component. -/
theorem DEFAULT_PYTHON_from_host (host : PyVerTuple) (uv : Bool) :
    (moduleInit host uv).DEFAULT_PYTHON = host.major ++ "." ++ host.minor ∧
    ∀ mic mic' : String,
      (moduleInit ⟨host.major, host.minor, mic⟩ uv).DEFAULT_PYTHON =
        (moduleInit ⟨host.major, host.minor, mic'⟩ uv).DEFAULT_PYTHON :=
  ⟨rfl, fun _ _ => rfl⟩

/-- C10: module initialization sets `error_on_missing_interpreters = False`,
`error_on_external_run = False` and `reuse_existing_virtualenvs = True` on
the process-wide options; consequently the runner schedules only the
available declared versions and never errors on a missing one — on a host
where only 3.12 is available, the two-entry test matrix shrinks to the
single invocation for 3.12. -/
theorem nox_options_set (host : PyVerTuple) (uv : Bool) :
    (moduleInit host uv).options.error_on_missing_interpreters = false ∧
    (moduleInit host uv).options.error_on_external_run = false ∧
    (moduleInit host uv).options.reuse_existing_virtualenvs = true ∧
    (∀ available : String → Bool,
      scheduleVersions (moduleInit host uv).options.error_on_missing_interpreters
        available (moduleInit host uv).PY_VERSIONS =
        .ok ((moduleInit host uv).PY_VERSIONS.filter available)) ∧
    scheduleVersions (moduleInit host uv).options.error_on_missing_interpreters
      (fun v => v == "3.12") (moduleInit host uv).PY_VERSIONS = .ok ["3.12"] := by
  refine ⟨rfl, rfl, rfl, fun avail => ?_, ?_⟩
  · simp [scheduleVersions, moduleInit]
  · simp [scheduleVersions, moduleInit]

@[simp] lemma isBlackCmd_install (s : String) : isBlackCmd (.install s) = false := rfl

@[simp] lemma isBlackCmd_logInfo (m : String) : isBlackCmd (.logInfo m) = false := rfl

@[simp] lemma isBlackCmd_logWarning (m : String) : isBlackCmd (.logWarning m) = false := rfl

@[simp] lemma isBlackCmd_logError (m : String) : isBlackCmd (.logError m) = false := rfl

@[simp] lemma isBlackCmd_helperCall (a : String) : isBlackCmd (.helperCall a) = false := rfl

@[simp] lemma isBlackCmd_black (rest : List String) :
    isBlackCmd (.cmd ("black" :: rest)) = true := rfl

@[simp] lemma isCmd_install (s : String) : isCmd (.install s) = false := rfl

@[simp] lemma isCmd_logInfo (m : String) : isCmd (.logInfo m) = false := rfl

@[simp] lemma isCmd_logWarning (m : String) : isCmd (.logWarning m) = false := rfl

@[simp] lemma isCmd_logError (m : String) : isCmd (.logError m) = false := rfl

@[simp] lemma isCmd_helperCall (a : String) : isCmd (.helperCall a) = false := rfl

@[simp] lemma isCmd_cmd (args : List String) : isCmd (.cmd args) = true := rfl

@[simp] lemma isHelperCall_install (s : String) : isHelperCall (.install s) = false := rfl

@[simp] lemma isHelperCall_logInfo (m : String) : isHelperCall (.logInfo m) = false := rfl

@[simp] lemma isHelperCall_logWarning (m : String) : isHelperCall (.logWarning m) = false := rfl

@[simp] lemma isHelperCall_logError (m : String) : isHelperCall (.logError m) = false := rfl

@[simp] lemma isHelperCall_cmd (args : List String) : isHelperCall (.cmd args) = false := rfl

@[simp] lemma isHelperCall_helperCall (a : String) : isHelperCall (.helperCall a) = true := rfl

@[simp] lemma isInstall_install (s : String) : isInstall (.install s) = true := rfl

@[simp] lemma isInstall_logInfo (m : String) : isInstall (.logInfo m) = false := rfl

@[simp] lemma isInstall_logWarning (m : String) : isInstall (.logWarning m) = false := rfl

@[simp] lemma isInstall_logError (m : String) : isInstall (.logError m) = false := rfl

@[simp] lemma isInstall_cmd (args : List String) : isInstall (.cmd args) = false := rfl

@[simp] lemma isInstall_helperCall (a : String) : isInstall (.helperCall a) = false := rfl

@[simp] lemma isApplyAllCmd_install (s : String) : isApplyAllCmd (.install s) = false := rfl

@[simp] lemma isApplyAllCmd_logInfo (m : String) : isApplyAllCmd (.logInfo m) = false := rfl

@[simp] lemma isApplyAllCmd_logWarning (m : String) : isApplyAllCmd (.logWarning m) = false := rfl

@[simp] lemma isApplyAllCmd_logError (m : String) : isApplyAllCmd (.logError m) = false := rfl

@[simp] lemma isApplyAllCmd_helperCall (a : String) : isApplyAllCmd (.helperCall a) = false := rfl

@[simp] lemma isApplyAllCmd_cmd (args : List String) :
    isApplyAllCmd (.cmd args) = (args == ["python", "manage.py", "migrate"]) := rfl

@[simp] lemma cmdArgs_install (s : String) : cmdArgs (.install s) = none := rfl

@[simp] lemma cmdArgs_logInfo (m : String) : cmdArgs (.logInfo m) = none := rfl

@[simp] lemma cmdArgs_logWarning (m : String) : cmdArgs (.logWarning m) = none := rfl

@[simp] lemma cmdArgs_logError (m : String) : cmdArgs (.logError m) = none := rfl

@[simp] lemma cmdArgs_helperCall (a : String) : cmdArgs (.helperCall a) = none := rfl

@[simp] lemma cmdArgs_cmd (args : List String) : cmdArgs (.cmd args) = some args := rfl

/-- When every Black invocation succeeds, the lint loop completes and
issues exactly one formatter invocation per existing configured path. -/
lemma lintLoop_ok (env : Env) (hr : ∀ args, env.runOutcome args = .ok ()) :
    ∀ ps : List String, (lintLoop env ps).2 = .ok () ∧
      (lintLoop env ps).1.countP isBlackCmd = (ps.filter env.pathExists).length
  | [] => ⟨rfl, rfl⟩
  | d :: rest => by
    have ih := lintLoop_ok env hr rest
    by_cases hd : env.pathExists d
    · simp [lintLoop, hd, hr, ih.1, ih.2, List.filter_cons]
    · simp [lintLoop, hd, ih.1, ih.2, List.filter_cons]

/-- When every Black invocation succeeds, each missing configured path
gets its skip warning in the loop's trace. -/
lemma lintLoop_warn (env : Env) (hr : ∀ args, env.runOutcome args = .ok ()) :
    ∀ ps : List String, ∀ d ∈ ps, env.pathExists d = false →
      Event.logWarning ("Skipping lint path '" ++ d ++ "', could not find path")
        ∈ (lintLoop env ps).1
  | [] => by
    intro d hd _
    exact absurd hd (by simp)
  | p :: rest => by
    intro d hd hfalse
    have ihrec := fun hmem => lintLoop_warn env hr rest d hmem hfalse
    rcases List.mem_cons.mp hd with rfl | hmem
    · simp [lintLoop, hfalse]
    · by_cases hp : env.pathExists p
      · simp [lintLoop, hp, hr, ihrec hmem]
      · simp [lintLoop, hp, ihrec hmem]

/-- The lint loop never issues a formatter invocation for a path that
does not exist (regardless of command outcomes). -/
lemma lintLoop_no_black (env : Env) (d : String) (hd : env.pathExists d = false) :
    ∀ ps : List String, Event.cmd ["black", d] ∉ (lintLoop env ps).1
  | [] => by simp [lintLoop]
  | p :: rest => by
    have ih := lintLoop_no_black env d hd rest
    by_cases hp : env.pathExists p
    · have hne : p ≠ d := by
        intro h
        subst h
        simp [hp] at hd
      rcases hout : env.runOutcome ["black", p] with e | u
      · simp [lintLoop, hp, hout, hne.symm]
      · simp [lintLoop, hp, hout, hne.symm, ih]
    · simp [lintLoop, hp, ih]

/-- C4 counterexample: with the configured lint-path list `["noxfile.py"]`
on a filesystem where no path exists, the missing path `"noxfile.py"`
still receives a formatter invocation — the unconditional final self-lint
`black noxfile.py` — so the claim that a non-existing configured path gets
no executor call is false as stated. -/
theorem lintSessionClaim_counterexample : ¬ lintSessionClaim envNoPaths ["noxfile.py"] := by
  intro h
  exact (h.2 "noxfile.py" (by simp) rfl).2 (by decide)

/-- C4 (amended): when installation and every formatter run succeed, the
Lint session issues exactly (number of existing configured paths + 1)
formatter invocations, and each non-existing configured path gets a skip
warning and — unless it is the automation script's own file name
`"noxfile.py"`, which the unconditional final self-lint always targets —
no formatter invocation. -/
theorem run_linter_invocation_count (env : Env) (paths : List String)
    (hi : env.installOutcome "black" = .ok ())
    (hr : ∀ args, env.runOutcome args = .ok ()) :
    (run_linter env paths).1.countP isBlackCmd = (paths.filter env.pathExists).length + 1 ∧
    ∀ d ∈ paths, env.pathExists d = false →
      Event.logWarning ("Skipping lint path '" ++ d ++ "', could not find path")
        ∈ (run_linter env paths).1 ∧
      (d ≠ "noxfile.py" → Event.cmd ["black", d] ∉ (run_linter env paths).1) := by
  have hloop := lintLoop_ok env hr paths
  constructor
  · simp [run_linter, hi, hloop.1, hloop.2, List.countP_append, List.countP_cons]
  · intro d hd hfalse
    have hw := lintLoop_warn env hr paths d hd hfalse
    have hnb := lintLoop_no_black env d hfalse paths
    constructor
    · simp [run_linter, hi, hloop.1, hw]
    · intro hne
      simp [run_linter, hi, hloop.1, hnb, hne]

/-- C4 witness: with only `"src"` existing among the configured paths
`["src", "tests"]`, there are exactly 2 formatter invocations, the
missing `"tests"` path gets its warning and no `black tests` call. -/
theorem run_linter_invocation_count_witness :
    (run_linter envSrcOnly ["src", "tests"]).1.countP isBlackCmd = 2 ∧
    Event.logWarning ("Skipping lint path '" ++ "tests" ++ "', could not find path")
      ∈ (run_linter envSrcOnly ["src", "tests"]).1 ∧
    Event.cmd ["black", "tests"] ∉ (run_linter envSrcOnly ["src", "tests"]).1 := by
  have h := run_linter_invocation_count envSrcOnly ["src", "tests"] rfl (fun _ => rfl)
  have hm := h.2 "tests" (by simp) (by decide)
  exact ⟨h.1.trans (by decide), hm.1, hm.2 (by decide)⟩

/-- C2: the per-app migration helper returns `true` iff both the
generate step and the apply step succeed for that app; on either failure
it logs an error carrying the exception's type, the app name and the
exception's message and returns `false`; and for every environment its
result is an `.ok` value — no exception from either step escapes the
helper's boundary. -/
theorem migration_helper_contract (env : Env) (app_name : String) :
    ((_do_migration env app_name).2 = .ok true ↔
      env.runOutcome ["python", "manage.py", "makemigrations", app_name] = .ok () ∧
      env.runOutcome ["python", "manage.py", "migrate", app_name] = .ok ()) ∧
    (∃ b, (_do_migration env app_name).2 = .ok b) ∧
    (∀ e, env.runOutcome ["python", "manage.py", "makemigrations", app_name] = .error e →
      (_do_migration env app_name).2 = .ok false ∧
      Event.logError ("(" ++ e.ty ++ ") Unhandled exception making migrations for '"
        ++ app_name ++ "'. Details: " ++ e.msg) ∈ (_do_migration env app_name).1) ∧
    (∀ e, env.runOutcome ["python", "manage.py", "makemigrations", app_name] = .ok () →
      env.runOutcome ["python", "manage.py", "migrate", app_name] = .error e →
      (_do_migration env app_name).2 = .ok false ∧
      Event.logError ("(" ++ e.ty ++ ") Unhandled exception while migrating '"
        ++ app_name ++ "'. Details: " ++ e.msg) ∈ (_do_migration env app_name).1) := by
  rcases hg : env.runOutcome ["python", "manage.py", "makemigrations", app_name] with e | u
  · refine ⟨?_, ⟨false, ?_⟩, ?_, ?_⟩
    · simp [_do_migration, hg]
    · simp [_do_migration, hg]
    · intro e' he'
      injection he' with h
      subst h
      constructor
      · simp [_do_migration, hg]
      · simp [_do_migration, hg]
    · intro e' hok _
      exact absurd hok (by simp)
  · rcases ha : env.runOutcome ["python", "manage.py", "migrate", app_name] with e | u2
    · refine ⟨?_, ⟨false, ?_⟩, ?_, ?_⟩
      · simp [_do_migration, hg, ha]
      · simp [_do_migration, hg, ha]
      · intro e' he'
        exact absurd he' (by simp)
      · intro e' _ ha'
        injection ha' with h
        subst h
        constructor
        · simp [_do_migration, hg, ha]
        · simp [_do_migration, hg, ha]
    · refine ⟨?_, ⟨true, ?_⟩, ?_, ?_⟩
      · simp [_do_migration, hg, ha]
      · simp [_do_migration, hg, ha]
      · intro e' he'
        exact absurd he' (by simp)
      · intro e' _ ha'
        exact absurd ha' (by simp)

/-- C2 witness: for app `"blog"`, a failing generate step yields `false`
with its error log, a failing apply step yields `false` with its error
log, and the all-success environment yields `true`. -/
theorem migration_helper_contract_witness :
    (_do_migration envGenFail "blog").2 = .ok false ∧
    Event.logError ("(" ++ excGen.ty ++ ") Unhandled exception making migrations for '"
      ++ "blog" ++ "'. Details: " ++ excGen.msg) ∈ (_do_migration envGenFail "blog").1 ∧
    (_do_migration envApplyFail "blog").2 = .ok false ∧
    Event.logError ("(" ++ excApply.ty ++ ") Unhandled exception while migrating '"
      ++ "blog" ++ "'. Details: " ++ excApply.msg) ∈ (_do_migration envApplyFail "blog").1 ∧
    (_do_migration envAllOk "blog").2 = .ok true := by
  have h1 := (migration_helper_contract envGenFail "blog").2.2.1 excGen rfl
  have h2 := (migration_helper_contract envApplyFail "blog").2.2.2 excApply rfl rfl
  have h3 := (migration_helper_contract envAllOk "blog").1.mpr ⟨rfl, rfl⟩
  exact ⟨h1.1, h1.2, h2.1, h2.2, h3⟩

/-- C3: in the project-wide Migrate session (with Django installed), a
failing generate step means the apply command is never issued (its call
count in the trace is 0), the generate error is logged and the session
returns without raising; a successful generate followed by a failing
apply logs the apply error and the session returns without raising. -/
theorem do_all_migrations_failure_order (env : Env)
    (hi : env.installOutcome "Django" = .ok ()) :
    (∀ e, env.runOutcome ["python", "manage.py", "makemigrations"] = .error e →
      (do_all_migrations env).1.countP isApplyAllCmd = 0 ∧
      Event.logError ("(" ++ e.ty ++ ") Unhandled exception making migrations. Details: "
        ++ e.msg) ∈ (do_all_migrations env).1 ∧
      (do_all_migrations env).2 = .ok ()) ∧
    (∀ e, env.runOutcome ["python", "manage.py", "makemigrations"] = .ok () →
      env.runOutcome ["python", "manage.py", "migrate"] = .error e →
      Event.logError ("(" ++ e.ty ++ ") Unhandled exception while migrating models. Details: "
        ++ e.msg) ∈ (do_all_migrations env).1 ∧
      (do_all_migrations env).2 = .ok ()) := by
  constructor
  · intro e hg
    refine ⟨?_, ?_, ?_⟩ <;> simp [do_all_migrations, hi, hg]
  · intro e hg ha
    constructor <;> simp [do_all_migrations, hi, hg, ha]

/-- C3 witness: concrete runs where generate fails (apply never issued,
generate error logged) and where only apply fails (apply error logged),
both returning without raising. -/
theorem do_all_migrations_failure_order_witness :
    (do_all_migrations envGenFail).1.countP isApplyAllCmd = 0 ∧
    Event.logError ("(" ++ excGen.ty ++ ") Unhandled exception making migrations. Details: "
      ++ excGen.msg) ∈ (do_all_migrations envGenFail).1 ∧
    (do_all_migrations envGenFail).2 = .ok () ∧
    Event.logError ("(" ++ excApply.ty ++ ") Unhandled exception while migrating models. Details: "
      ++ excApply.msg) ∈ (do_all_migrations envApplyFail).1 ∧
    (do_all_migrations envApplyFail).2 = .ok () := by
  have h1 := (do_all_migrations_failure_order envGenFail rfl).1 excGen rfl
  have h2 := (do_all_migrations_failure_order envApplyFail rfl).2 excApply rfl rfl
  exact ⟨h1.1, h1.2.1, h1.2.2, h2.1, h2.2⟩

/-- C5: every completing run of the Export-Requirements session issues
exactly two export invocations, in order production then development,
each carrying `--without-hashes`, targeting the two distinct fixed paths
`requirements.txt` and `requirements.dev.txt`. -/
theorem export_requirements_two_exports (env : Env) (pdm_ver : String)
    (hok : (export_requirements env pdm_ver).2 = .ok ()) :
    (export_requirements env pdm_ver).1.filterMap cmdArgs =
      [["pdm", "export", "--prod", "-o", "requirements.txt", "--without-hashes"],
       ["pdm", "export", "-d", "-o", "requirements.dev.txt", "--without-hashes"]] ∧
    (export_requirements env pdm_ver).1.countP isCmd = 2 ∧
    "requirements.txt" ≠ "requirements.dev.txt" := by
  rcases hi : env.installOutcome ("pdm>=" ++ pdm_ver) with e | u
  · simp [export_requirements, hi] at hok
  · rcases h1 : env.runOutcome
        ["pdm", "export", "--prod", "-o", "requirements.txt", "--without-hashes"] with e | u1
    · simp [export_requirements, hi, h1] at hok
    · rcases h2 : env.runOutcome
          ["pdm", "export", "-d", "-o", "requirements.dev.txt", "--without-hashes"] with e | u2
      · simp [export_requirements, hi, h1, h2] at hok
      · refine ⟨?_, ?_, by decide⟩ <;> simp [export_requirements, hi, h1, h2]

/-- C5 witness: the all-success environment completes and shows the two
export invocations. -/
theorem export_requirements_two_exports_witness :
    (export_requirements envAllOk "2.15.4").1.filterMap cmdArgs =
      [["pdm", "export", "--prod", "-o", "requirements.txt", "--without-hashes"],
       ["pdm", "export", "-d", "-o", "requirements.dev.txt", "--without-hashes"]] ∧
    (export_requirements envAllOk "2.15.4").1.countP isCmd = 2 ∧
    "requirements.txt" ≠ "requirements.dev.txt" :=
  export_requirements_two_exports envAllOk "2.15.4" rfl

/-- C7: an installation failure aborts the owning session immediately:
the failure propagates as the session's outcome and no executor call of
the session's body is issued — for all four registered sessions; the
per-app migration helper performs no installation step at all. -/
theorem install_failure_aborts (env : Env) (e : Exc) (paths : List String) (v : String) :
    (env.installOutcome "black" = .error e →
      (run_linter env paths).2 = .error e ∧ (run_linter env paths).1.countP isCmd = 0) ∧
    (env.installOutcome ("pdm>=" ++ v) = .error e →
      (export_requirements env v).2 = .error e ∧
      (export_requirements env v).1.countP isCmd = 0) ∧
    (env.installOutcome ("pdm>=" ++ v) = .error e →
      (run_tests env v).2 = .error e ∧ (run_tests env v).1.countP isCmd = 0) ∧
    (env.installOutcome "Django" = .error e →
      (do_all_migrations env).2 = .error e ∧
      (do_all_migrations env).1.countP isCmd = 0) ∧
    (∀ app_name, (_do_migration env app_name).1.countP isInstall = 0) := by
  refine ⟨?_, ?_, ?_, ?_, ?_⟩
  · intro h
    constructor <;> simp [run_linter, h]
  · intro h
    constructor <;> simp [export_requirements, h]
  · intro h
    constructor <;> simp [run_tests, h]
  · intro h
    constructor <;> simp [do_all_migrations, h]
  · intro a
    rcases hg : env.runOutcome ["python", "manage.py", "makemigrations", a] with e1 | u1
    · simp [_do_migration, hg]
    · rcases ha : env.runOutcome ["python", "manage.py", "migrate", a] with e2 | u2
      · simp [_do_migration, hg, ha]
      · simp [_do_migration, hg, ha]

/-- C7 witness: in an environment where every installation fails, each
session propagates the installation error and issues zero commands. -/
theorem install_failure_aborts_witness :
    ((run_linter envInstallFail ["src", "tests"]).2 = .error ⟨"InstallError", "pip failed"⟩ ∧
      (run_linter envInstallFail ["src", "tests"]).1.countP isCmd = 0) ∧
    ((export_requirements envInstallFail "2.15.4").2 = .error ⟨"InstallError", "pip failed"⟩ ∧
      (export_requirements envInstallFail "2.15.4").1.countP isCmd = 0) ∧
    ((run_tests envInstallFail "2.15.4").2 = .error ⟨"InstallError", "pip failed"⟩ ∧
      (run_tests envInstallFail "2.15.4").1.countP isCmd = 0) ∧
    ((do_all_migrations envInstallFail).2 = .error ⟨"InstallError", "pip failed"⟩ ∧
      (do_all_migrations envInstallFail).1.countP isCmd = 0) ∧
    (_do_migration envInstallFail "blog").1.countP isInstall = 0 := by
  have h := install_failure_aborts envInstallFail ⟨"InstallError", "pip failed"⟩
    ["src", "tests"] "2.15.4"
  exact ⟨h.1 rfl, h.2.1 rfl, h.2.2.1 rfl, h.2.2.2.1 rfl, h.2.2.2.2 "blog"⟩

/-- C9: the project-wide Migrate session never enters the per-app helper
(zero `helperCall` events in its trace, for every environment, while
every helper invocation contributes exactly one such event), and it
re-implements the generate-then-apply structure itself: on the
all-success path its commands are exactly project-wide generate followed
by project-wide apply, and its result carries no boolean. -/
theorem do_all_migrations_no_helper (env : Env) :
    (do_all_migrations env).1.countP isHelperCall = 0 ∧
    (∀ app_name, (_do_migration env app_name).1.countP isHelperCall = 1) ∧
    (env.installOutcome "Django" = .ok () →
      env.runOutcome ["python", "manage.py", "makemigrations"] = .ok () →
      env.runOutcome ["python", "manage.py", "migrate"] = .ok () →
      (do_all_migrations env).1.filterMap cmdArgs =
        [["python", "manage.py", "makemigrations"], ["python", "manage.py", "migrate"]] ∧
      (do_all_migrations env).2 = .ok ()) := by
  refine ⟨?_, ?_, ?_⟩
  · rcases hi : env.installOutcome "Django" with e | u
    · simp [do_all_migrations, hi]
    · rcases hg : env.runOutcome ["python", "manage.py", "makemigrations"] with e | u1
      · simp [do_all_migrations, hi, hg]
      · rcases ha : env.runOutcome ["python", "manage.py", "migrate"] with e | u2
        · simp [do_all_migrations, hi, hg, ha]
        · simp [do_all_migrations, hi, hg, ha]
  · intro a
    rcases hg : env.runOutcome ["python", "manage.py", "makemigrations", a] with e | u1
    · simp [_do_migration, hg]
    · rcases ha : env.runOutcome ["python", "manage.py", "migrate", a] with e | u2
      · simp [_do_migration, hg, ha]
      · simp [_do_migration, hg, ha]
  · intro hi hg ha
    constructor <;> simp [do_all_migrations, hi, hg, ha]

/-- C9 witness: in the all-success environment the project-wide session's
trace has zero helper entries and exactly the two project-wide commands,
while a helper invocation is observable as one helper entry. -/
theorem do_all_migrations_no_helper_witness :
    (do_all_migrations envAllOk).1.countP isHelperCall = 0 ∧
    (_do_migration envAllOk "blog").1.countP isHelperCall = 1 ∧
    (do_all_migrations envAllOk).1.filterMap cmdArgs =
      [["python", "manage.py", "makemigrations"], ["python", "manage.py", "migrate"]] := by
  have h := do_all_migrations_no_helper envAllOk
  exact ⟨h.1, h.2.1 "blog", (h.2.2 rfl rfl rfl).1⟩

end NoxFile
